import Mathlib

/-
Verification of the angular-correlation kernel module (kernel.py).

The module's own code is arithmetic, min/max bound logic, lazy spline
caching and state transitions; everything it calls out to (the scipy
integrators, numpy exp/log, Bessel special functions, spline fitting and
the cosmology adapter) is an external collaborator.  We embed the module
shallowly over ℚ: external collaborators become explicit function-valued
parameters (`Env`, `Cosmology`), Python objects become state records, and
every method becomes a Lean function translated line by line from the
source.  Python mutation is modeled by explicit state passing; the shared
in-place cosmology mutation is modeled by passing the post-mutation
`Cosmology` value to every holder, as the source does through the shared
object reference.
-/

/-- External cosmology adapter (cosmology.MultiEpoch): comoving_distance,
redshift inversion, expansion rate E, growth factor, H0, omega_m0. -/
structure Cosmology where
  comoving_distance : ℚ → ℚ
  redshift : ℚ → ℚ
  E : ℚ → ℚ
  growth_factor : ℚ → ℚ
  H0 : ℚ
  omega_m0 : ℚ

/-- External numerical collaborators: scipy.integrate.romberg (integrand,
lower, upper, tol), scipy.integrate.quad (integrand, lower, upper, limit),
scipy InterpolatedUnivariateSpline fitting (knots, values -> evaluator),
numpy exp/log, scipy.special j0 / jn, and the last element of
scipy.special.jn_zeros (order, count). -/
structure Env where
  romberg : (ℚ → ℚ) → ℚ → ℚ → ℚ → ℚ
  quad : (ℚ → ℚ) → ℚ → ℚ → ℕ → ℚ
  splineFit : List ℚ → List ℚ → ℚ → ℚ
  exp : ℚ → ℚ
  log : ℚ → ℚ
  j0 : ℚ → ℚ
  jn : ℕ → ℚ → ℚ
  jn_zeros_last : ℕ → ℕ → ℚ

/-- The defaults.default_precision configuration dictionary. -/
structure Defaults where
  dNdz_precision : ℚ
  window_precision : ℚ
  kernel_precision : ℚ
  window_npoints : ℕ
  kernel_npoints : ℕ
  kernel_bessel_limit : ℕ
  kernel_limit : ℕ

/-- numpy.linspace: n evenly spaced samples from a to b, endpoints included. -/
def linspace (a b : ℚ) (n : ℕ) : List ℚ :=
  if n = 0 then []
  else if n = 1 then [a]
  else (List.range n).map fun i => a + (b - a) * (i : ℚ) / ((n : ℚ) - 1)

/-- numpy.argmax composed with list indexing: the element of the list whose
image under f is maximal, first occurrence winning ties (numpy.argmax
returns the first maximal index); 0 on the empty list. -/
def argmaxList (f : ℚ → ℚ) : List ℚ → ℚ
  | [] => 0
  | x :: xs => xs.foldl (fun best y => if f best < f y then y else best) x

/-- State of a dNdz redshift-distribution object: domain bounds and the
normalization constant (1.0 at construction). -/
structure dNdzState where
  z_min : ℚ
  z_max : ℚ
  norm : ℚ
deriving DecidableEq

/-- dNdz.__init__: norm starts at 1.0. -/
def dNdz.init (z_min z_max : ℚ) : dNdzState :=
  { z_min := z_min, z_max := z_max, norm := 1 }

/-- dNdz.dndz: norm * raw_dndz(z) masked to 0 outside [z_min, z_max].
The subclass raw_dndz is the parameter raw. -/
def dNdz.dndz (raw : ℚ → ℚ) (d : dNdzState) (z : ℚ) : ℚ :=
  if z ≤ d.z_max ∧ d.z_min ≤ z then d.norm * raw z else 0

/-- dNdz.normalize: integrates the (already normalized) dndz over
[z_min, z_max] with romberg at dNdz_precision and stores the reciprocal as
norm.  The division is unguarded in the source (`self.norm = 1.0/norm`);
over ℚ the junk value 1/0 = 0 stands in for the ZeroDivisionError Python
raises at exactly 0, and the model is exact whenever the integral is any
nonzero value. -/
def dNdz.normalize (env : Env) (df : Defaults) (raw : ℚ → ℚ)
    (d : dNdzState) : dNdzState :=
  let n := env.romberg (dNdz.dndz raw d) d.z_min d.z_max df.dNdz_precision
  { d with norm := 1 / n }

/-- State of a WindowFunction object: the spline-initialized flag, redshift
and comoving-distance domains, the fixed chi sample grid, the cached raw
values, and the fitted spline (a dummy constant before the first build,
matching the attribute being absent in Python until _initialize_spline). -/
structure WFState where
  inited_spline : Bool
  z_min : ℚ
  z_max : ℚ
  cosmo : Cosmology
  chi_min : ℚ
  chi_max : ℚ
  chi_array : List ℚ
  wf_array : List ℚ
  wf_spline : ℚ → ℚ

/-- WindowFunction base-class raw_window_function: constant 1.0. -/
def WindowFunction.raw_window_function : WFState → ℚ → ℚ :=
  fun _ _ => 1

/-- WindowFunction.set_cosmology_object: adopt a cosmology object,
recompute chi_min/chi_max from z_min/z_max, clear the spline flag.
The sample grid _chi_array is not touched by the source. -/
def WindowFunction.set_cosmology_object (c : Cosmology) (s : WFState) : WFState :=
  { s with cosmo := c,
           chi_min := c.comoving_distance s.z_min,
           chi_max := c.comoving_distance s.z_max,
           inited_spline := false }

/-- WindowFunction.set_cosmology: the shared cosmology object is mutated in
place to the new parameters (modeled as the resulting Cosmology value c),
then chi_min/chi_max are recomputed and the spline flag cleared.  As in the
source, the sample grid _chi_array is not recomputed. -/
def WindowFunction.set_cosmology (c : Cosmology) (s : WFState) : WFState :=
  { s with cosmo := c,
           chi_min := c.comoving_distance s.z_min,
           chi_max := c.comoving_distance s.z_max,
           inited_spline := false }

/-- WindowFunction.__init__: store the z domain, adopt the cosmology
(set_cosmology_object), lay out the chi sample grid with linspace over
[chi_min, chi_max] with window_npoints points, and zero the value cache. -/
def WindowFunction.init (_env : Env) (df : Defaults) (z_min z_max : ℚ)
    (cosmo : Cosmology) : WFState :=
  let s0 : WFState :=
    { inited_spline := false, z_min := z_min, z_max := z_max,
      cosmo := cosmo, chi_min := 0, chi_max := 0,
      chi_array := [], wf_array := [], wf_spline := fun _ => 0 }
  let s1 := WindowFunction.set_cosmology_object cosmo s0
  let grid := linspace s1.chi_min s1.chi_max df.window_npoints
  { s1 with chi_array := grid, wf_array := grid.map (fun _ => 0) }

/-- WindowFunction._initialize_spline: evaluate the subclass raw window
function at every grid point and fit the spline over (grid, values). -/
def WindowFunction.init_spline (env : Env) (raw : WFState → ℚ → ℚ)
    (s : WFState) : WFState :=
  let vals := s.chi_array.map (raw s)
  { s with wf_array := vals,
           wf_spline := env.splineFit s.chi_array vals,
           inited_spline := true }

/-- WindowFunction.window_function: build the spline on first call, then
return the spline value masked to exactly 0 outside [chi_min, chi_max].
Returns the (possibly updated) state together with the value. -/
def WindowFunction.window_function (env : Env) (raw : WFState → ℚ → ℚ)
    (s : WFState) (chi : ℚ) : WFState × ℚ :=
  let s2 := if s.inited_spline then s else WindowFunction.init_spline env raw s
  (s2, if chi ≤ s2.chi_max ∧ s2.chi_min ≤ chi then s2.wf_spline chi else 0)

/-- The value component of window_function.  Because the spline build is a
deterministic function of the state, the value returned by the Python
method is this pure function of the pre-call state. -/
def WindowFunction.wfValue (env : Env) (raw : WFState → ℚ → ℚ)
    (s : WFState) (chi : ℚ) : ℚ :=
  (WindowFunction.window_function env raw s chi).2

/-- State of a WindowFunctionConvergence object: the base window state,
the cached comoving distance of the distribution's z_min (_g_chi_min), and
the (normalized) redshift distribution it wraps. -/
structure WFConvState where
  wf : WFState
  g_chi_min : ℚ
  redshift_dist : dNdzState

/-- WindowFunctionConvergence.__init__: normalize the redshift
distribution, then build the base window over z in [0.0, z_max] — the
lower bound is the literal 0.0 of the source, not the distribution's
z_min — and finally cache _g_chi_min = comoving_distance(dist.z_min). -/
def WindowFunctionConvergence.init (env : Env) (df : Defaults)
    (raw_d : ℚ → ℚ) (dist : dNdzState) (cosmo : Cosmology) : WFConvState :=
  let d := dNdz.normalize env df raw_d dist
  let wf := WindowFunction.init env df 0 d.z_max cosmo
  { wf := wf, g_chi_min := wf.cosmo.comoving_distance d.z_min,
    redshift_dist := d }

/-- State of a WindowFunctionConvergenceDelta object: the base window
state, the fixed source redshift (_redshift) and _g_chi_min (left 0.0
by the constructor). -/
structure WFDeltaState where
  wf : WFState
  redshift0 : ℚ
  g_chi_min : ℚ

/-- WindowFunctionConvergenceDelta.__init__: base window over
z in [0.0, redshift], source redshift stored, _g_chi_min = 0.0. -/
def WindowFunctionConvergenceDelta.init (env : Env) (df : Defaults)
    (redshift0 : ℚ) (cosmo : Cosmology) : WFDeltaState :=
  { wf := WindowFunction.init env df 0 redshift0 cosmo,
    redshift0 := redshift0, g_chi_min := 0 }

/-- WindowFunctionConvergenceDelta._lensing_integrand: the closed form
(chi_max - chi0)/chi_max for chi0 at most chi_max, else 0. -/
def WindowFunctionConvergenceDelta.lensing_integrand (s : WFDeltaState)
    (chi0 : ℚ) : ℚ :=
  if chi0 > s.wf.chi_max then 0 else (s.wf.chi_max - chi0) / s.wf.chi_max

/-- WindowFunctionConvergenceDelta.raw_window_function (scalar input): the
scale factor a is 1/(1 + self._redshift), the fixed source redshift — not
1/(1 + z(chi)).  (The source also computes a chi_bound from numpy.min and
_g_chi_min; it is dead code, never read afterwards.) -/
def WindowFunctionConvergenceDelta.raw_window_function (s : WFDeltaState)
    (chi : ℚ) : ℚ :=
  let a := 1 / (1 + s.redshift0)
  let g_chi := WindowFunctionConvergenceDelta.lensing_integrand s chi
  let g_chi2 := g_chi * (s.wf.cosmo.H0 * s.wf.cosmo.H0 * chi)
  3 / 2 * s.wf.cosmo.omega_m0 * g_chi2 / a

/-- State of a Kernel object: spline flag, log k*theta domain and sample
grid, the two window-function states, merged z/chi domain, shared
cosmology, the cached window-product normalization _window_norm, the
cached kernel values and spline, the J0 truncation radius _j0_limit,
the force_quad flag and the peak redshift z_bar. -/
structure KernelState where
  inited_spline : Bool
  ln_ktheta_min : ℚ
  ln_ktheta_max : ℚ
  wf_a : WFState
  wf_b : WFState
  z_min : ℚ
  z_max : ℚ
  cosmo : Cosmology
  chi_min : ℚ
  chi_max : ℚ
  window_norm : ℚ
  ln_ktheta_array : List ℚ
  kernel_array : List ℚ
  j0_limit : ℚ
  force_quad : Bool
  z_bar : ℚ
  kernel_spline : ℚ → ℚ

/-- Kernel._kernel_integrand: W_a(chi) * W_b(chi) * D(z(chi))^2 *
J0(ktheta*chi), the window values coming from the spline-backed
window_function wrappers. -/
def Kernel.kernel_integrand (env : Env) (rawA rawB : WFState → ℚ → ℚ)
    (s : KernelState) (chi ktheta : ℚ) : ℚ :=
  let D_z := s.cosmo.growth_factor (s.cosmo.redshift chi)
  WindowFunction.wfValue env rawA s.wf_a chi *
    WindowFunction.wfValue env rawB s.wf_b chi *
    D_z * D_z * env.j0 (ktheta * chi)

/-- Kernel._find_z_bar: the redshift grid point of [z_min, z_max] (with
kernel_npoints samples) at which the kernel integrand at ktheta = 0 is
largest (numpy.argmax, first maximum). -/
def Kernel.find_z_bar (env : Env) (df : Defaults)
    (rawA rawB : WFState → ℚ → ℚ) (s : KernelState) : ℚ :=
  let z_array := linspace s.z_min s.z_max df.kernel_npoints
  argmaxList
    (fun z => Kernel.kernel_integrand env rawA rawB s
      (s.cosmo.comoving_distance z) 0)
    z_array

/-- Kernel.__init__: log bounds, z domain merged by min/max of the two
window functions, both window functions reparented onto the shared
cosmology, chi domain merged by min/max, _window_norm computed by romberg
over the window product on [chi_min, chi_max] at kernel_precision (the
first window_function evaluations inside that integral build both
splines, so the wrapped states are the built ones), the ln_ktheta sample
grid and zeroed kernel cache, _j0_limit the last of the first
kernel_bessel_limit zeros of J0, and z_bar computed eagerly. -/
def Kernel.init (env : Env) (df : Defaults) (rawA rawB : WFState → ℚ → ℚ)
    (ktheta_min ktheta_max : ℚ) (wa wb : WFState) (cosmo : Cosmology)
    (force_quad : Bool) : KernelState :=
  let ln_min := env.log ktheta_min
  let ln_max := env.log ktheta_max
  let z_min := if wb.z_min < wa.z_min then wb.z_min else wa.z_min
  let z_max := if wb.z_max > wa.z_max then wb.z_max else wa.z_max
  let wa1 := WindowFunction.set_cosmology_object cosmo wa
  let wb1 := WindowFunction.set_cosmology_object cosmo wb
  let chi_min := if wb1.chi_min < wa1.chi_min then wb1.chi_min else wa1.chi_min
  let chi_max := if wb1.chi_max > wa1.chi_max then wb1.chi_max else wa1.chi_max
  let wa2 := WindowFunction.init_spline env rawA wa1
  let wb2 := WindowFunction.init_spline env rawB wb1
  let wnorm := env.romberg
    (fun chi => WindowFunction.wfValue env rawA wa2 chi *
                WindowFunction.wfValue env rawB wb2 chi)
    chi_min chi_max df.kernel_precision
  let ln_arr := linspace ln_min ln_max df.kernel_npoints
  let s0 : KernelState :=
    { inited_spline := false,
      ln_ktheta_min := ln_min, ln_ktheta_max := ln_max,
      wf_a := wa2, wf_b := wb2,
      z_min := z_min, z_max := z_max, cosmo := cosmo,
      chi_min := chi_min, chi_max := chi_max,
      window_norm := wnorm,
      ln_ktheta_array := ln_arr,
      kernel_array := ln_arr.map (fun _ => 0),
      j0_limit := env.jn_zeros_last 0 df.kernel_bessel_limit,
      force_quad := force_quad,
      z_bar := 0, kernel_spline := fun _ => 0 }
  { s0 with z_bar := Kernel.find_z_bar env df rawA rawB s0 }

/-- Kernel.set_cosmology: clear the kernel spline flag, mutate the shared
cosmology (modeled as the resulting value), push it to both window
functions, recompute the merged chi/z domain (the z bound follows the
window that wins the chi comparison), and recompute z_bar.  _window_norm
is not recomputed. -/
def Kernel.set_cosmology (env : Env) (df : Defaults)
    (rawA rawB : WFState → ℚ → ℚ) (c : Cosmology) (s : KernelState) :
    KernelState :=
  let wa1 := WindowFunction.set_cosmology_object c s.wf_a
  let wb1 := WindowFunction.set_cosmology_object c s.wf_b
  let chi_min := if wb1.chi_min < wa1.chi_min then wb1.chi_min else wa1.chi_min
  let z_min := if wb1.chi_min < wa1.chi_min then wb1.z_min else wa1.z_min
  let chi_max := if wb1.chi_max > wa1.chi_max then wb1.chi_max else wa1.chi_max
  let z_max := if wb1.chi_max > wa1.chi_max then wb1.z_max else wa1.z_max
  let s2 := { s with inited_spline := false, cosmo := c,
                     wf_a := wa1, wf_b := wb1,
                     chi_min := chi_min, z_min := z_min,
                     chi_max := chi_max, z_max := z_max }
  { s2 with z_bar := Kernel.find_z_bar env df rawA rawB s2 }

/-- Kernel.raw_kernel: ktheta = exp(ln_ktheta); the truncated upper bound
min(chi_max, _j0_limit/ktheta) is computed, the quad branch integrates
the kernel integrand from chi_min to that truncated bound with the
kernel_limit subinterval cap, but the romberg branch integrates from
chi_min to self.chi_max — the untruncated member bound, exactly as in the
source, where the truncated local variable is unused in that branch. -/
def Kernel.raw_kernel (env : Env) (df : Defaults)
    (rawA rawB : WFState → ℚ → ℚ) (s : KernelState) (ln_ktheta : ℚ) : ℚ :=
  let ktheta := env.exp ln_ktheta
  let chi_max2 := if s.j0_limit / ktheta ≥ s.chi_max then s.chi_max
                  else s.j0_limit / ktheta
  if s.force_quad then
    env.quad (fun chi => Kernel.kernel_integrand env rawA rawB s chi ktheta)
      s.chi_min chi_max2 df.kernel_limit
  else
    env.romberg (fun chi => Kernel.kernel_integrand env rawA rawB s chi ktheta)
      s.chi_min s.chi_max df.kernel_precision

/-- Kernel.kernel_weighted_mean: romberg of f(z(chi)) * W_a(chi) * W_b(chi)
over [chi_min, chi_max] at kernel_precision, divided by the cached
_window_norm. -/
def Kernel.kernel_weighted_mean (env : Env) (df : Defaults)
    (rawA rawB : WFState → ℚ → ℚ) (s : KernelState) (f : ℚ → ℚ) : ℚ :=
  let chi_fun := fun chi => f (s.cosmo.redshift chi)
  let mean := env.romberg
    (fun chi => chi_fun chi *
      WindowFunction.wfValue env rawA s.wf_a chi *
      WindowFunction.wfValue env rawB s.wf_b chi)
    s.chi_min s.chi_max df.kernel_precision
  mean / s.window_norm

/-- State of a GalaxyGalaxyLensingKernel: the base Kernel state plus the
J2 truncation radius _j2_limit. -/
structure GGLState where
  j2_limit : ℚ
  toKernel : KernelState

/-- GalaxyGalaxyLensingKernel.__init__: _j2_limit is the last of the first
kernel_bessel_limit zeros of J2, then the base Kernel constructor runs. -/
def GalaxyGalaxyLensingKernel.init (env : Env) (df : Defaults)
    (rawA rawB : WFState → ℚ → ℚ) (ktheta_min ktheta_max : ℚ)
    (wa wb : WFState) (cosmo : Cosmology) (force_quad : Bool) : GGLState :=
  { j2_limit := env.jn_zeros_last 2 df.kernel_bessel_limit,
    toKernel := Kernel.init env df rawA rawB ktheta_min ktheta_max
      wa wb cosmo force_quad }

/-- GalaxyGalaxyLensingKernel._kernel_integrand_j2: as the base integrand
with J2 in place of J0. -/
def GalaxyGalaxyLensingKernel.kernel_integrand_j2 (env : Env)
    (rawA rawB : WFState → ℚ → ℚ) (s : KernelState) (chi ktheta : ℚ) : ℚ :=
  let D_z := s.cosmo.growth_factor (s.cosmo.redshift chi)
  WindowFunction.wfValue env rawA s.wf_a chi *
    WindowFunction.wfValue env rawB s.wf_b chi *
    D_z * D_z * env.jn 2 (ktheta * chi)

/-- GalaxyGalaxyLensingKernel.raw_kernel: identical bound logic with
_j2_limit, and here both the quad branch and the romberg branch integrate
up to the truncated bound. -/
def GalaxyGalaxyLensingKernel.raw_kernel (env : Env) (df : Defaults)
    (rawA rawB : WFState → ℚ → ℚ) (g : GGLState) (ln_ktheta : ℚ) : ℚ :=
  let s := g.toKernel
  let ktheta := env.exp ln_ktheta
  let chi_max2 := if g.j2_limit / ktheta ≥ s.chi_max then s.chi_max
                  else g.j2_limit / ktheta
  if s.force_quad then
    env.quad
      (fun chi => GalaxyGalaxyLensingKernel.kernel_integrand_j2 env rawA rawB
        s chi ktheta)
      s.chi_min chi_max2 df.kernel_limit
  else
    env.romberg
      (fun chi => GalaxyGalaxyLensingKernel.kernel_integrand_j2 env rawA rawB
        s chi ktheta)
      s.chi_min chi_max2 df.kernel_precision

/-- A concrete instantiation of the external collaborators for evaluating
the model at concrete inputs: the integrators are the midpoint rule (exact
on constant and linear integrands), the spline evaluator is a simple
function of the knots, the Bessel factors are 1 and exp/log are stand-in
maps. -/
def testEnv : Env :=
  { romberg := fun f a b _t => (b - a) * f ((a + b) / 2),
    quad := fun f a b _l => (b - a) * f ((a + b) / 2),
    splineFit := fun knots _vals x => x + knots.foldr (fun u v => u + v) 0,
    exp := fun _ => 1,
    log := fun x => x,
    j0 := fun _ => 1,
    jn := fun _ _ => 1,
    jn_zeros_last := fun n _ => 10 + n }

/-- A second concrete instantiation whose integrators return the upper
integration bound they were handed: evaluating the kernel under it reads
off which upper bound a raw_kernel branch passes to its integrator. -/
def probeEnv : Env :=
  { romberg := fun _f _a b _t => b,
    quad := fun _f _a b _l => b,
    splineFit := fun _ _ _ => 0,
    exp := fun _ => 1,
    log := fun x => x,
    j0 := fun _ => 1,
    jn := fun _ _ => 1,
    jn_zeros_last := fun n _ => 10 + n }

/-- A concrete cosmology: comoving_distance(z) = 100z, redshift its
inverse, trivial expansion and growth, H0 = 1, omega_m0 = 3/10. -/
def cosmoA : Cosmology :=
  { comoving_distance := fun z => 100 * z,
    redshift := fun chi => chi / 100,
    E := fun _ => 1,
    growth_factor := fun _ => 1,
    H0 := 1,
    omega_m0 := 3 / 10 }

/-- A second concrete cosmology with a different distance scale:
comoving_distance(z) = 200z. -/
def cosmoB : Cosmology :=
  { comoving_distance := fun z => 200 * z,
    redshift := fun chi => chi / 200,
    E := fun _ => 1,
    growth_factor := fun _ => 1,
    H0 := 1,
    omega_m0 := 3 / 10 }

/-- A small concrete configuration profile (two grid points keep concrete
evaluations readable). -/
def testDefaults : Defaults :=
  { dNdz_precision := 1 / 1000,
    window_precision := 1 / 1000,
    kernel_precision := 1 / 1000,
    window_npoints := 2,
    kernel_npoints := 2,
    kernel_bessel_limit := 5,
    kernel_limit := 50 }

/-- The source's min-merge idiom `if y < x then y else x` is min. -/
theorem if_lt_eq_min (x y : ℚ) : (if y < x then y else x) = min x y := by
  rcases lt_or_ge y x with h | h
  · simp [h, min_eq_right h.le]
  · simp [not_lt.mpr h, min_eq_left h]

/-- The source's max-merge idiom `if y > x then y else x` is max. -/
theorem if_gt_eq_max (x y : ℚ) : (if y > x then y else x) = max x y := by
  rcases lt_or_ge x y with h | h
  · simp [h, max_eq_right h.le]
  · simp [not_lt.mpr h, max_eq_left h]

/-- The normalization constant scales dndz linearly. -/
theorem dndz_norm_smul (raw : ℚ → ℚ) (d : dNdzState) (c z : ℚ) :
    dNdz.dndz raw { d with norm := c } z
      = c * dNdz.dndz raw { d with norm := 1 } z := by
  by_cases h : z ≤ d.z_max ∧ d.z_min ≤ z <;> simp [dNdz.dndz, h]


/-- Claim C1: for every ln_ktheta, raw_kernel integrates the kernel
integrand over chi from chi_min up to an upper bound truncated to
min(chi_max, last_relevant_zero_of_J_n / ktheta), in both the adaptive
(romberg) and fixed-order (force_quad) modes — REFUTED for the standard
Kernel's romberg branch.  Under an environment whose integrators return
the upper bound they are handed, with chi_max = 100, _j0_limit = 10,
_j2_limit = 12 and ktheta = exp(0) = 1: the standard Kernel's romberg
branch passes 100 = self.chi_max (the truncated bound 10 is computed but
unused), while its quad branch passes 10 and both GalaxyGalaxyLensing
branches pass the truncated 12. -/
theorem c1_raw_kernel_romberg_bound_untruncated :
    (let R := WindowFunction.raw_window_function
     let w := WindowFunction.init probeEnv testDefaults 0 1 cosmoA
     let k := Kernel.init probeEnv testDefaults R R 1 2 w w cosmoA false
     let kq := Kernel.init probeEnv testDefaults R R 1 2 w w cosmoA true
     let g := GalaxyGalaxyLensingKernel.init probeEnv testDefaults R R
       1 2 w w cosmoA false
     let gq := GalaxyGalaxyLensingKernel.init probeEnv testDefaults R R
       1 2 w w cosmoA true
     k.chi_max = 100
     ∧ min k.chi_max (k.j0_limit / probeEnv.exp 0) = 10
     ∧ Kernel.raw_kernel probeEnv testDefaults R R k 0 = 100
     ∧ Kernel.raw_kernel probeEnv testDefaults R R kq 0 = 10
     ∧ GalaxyGalaxyLensingKernel.raw_kernel probeEnv testDefaults R R g 0 = 12
     ∧ GalaxyGalaxyLensingKernel.raw_kernel probeEnv testDefaults R R gq 0 = 12
     ∧ (100 : ℚ) ≠ 10) := by
  norm_num [Kernel.init, Kernel.raw_kernel, Kernel.find_z_bar,
    Kernel.kernel_integrand, GalaxyGalaxyLensingKernel.init,
    GalaxyGalaxyLensingKernel.raw_kernel,
    GalaxyGalaxyLensingKernel.kernel_integrand_j2,
    WindowFunction.init, WindowFunction.init_spline,
    WindowFunction.set_cosmology_object, WindowFunction.window_function,
    WindowFunction.wfValue, WindowFunction.raw_window_function,
    linspace, argmaxList, List.range_succ, probeEnv, testDefaults, cosmoA,
    min_def]

/-- Claim C2: if the unnormalized shape integrates to approximately 0,
dNdz.normalize either fails with a distinct zero-normalization error or
leaves the normalization at 1 — REFUTED.  For a shape whose integral is
the near-zero 10^-9 (constant 10^-9 on [0, 1] under the exact midpoint
integrator), normalize performs the unguarded reciprocal and stores
norm = 10^9: no error of any kind is raised and the constant is not 1. -/
theorem c2_normalize_unguarded_reciprocal :
    dNdz.normalize testEnv testDefaults (fun _ => 1 / 1000000000)
        (dNdz.init 0 1)
      = { z_min := 0, z_max := 1, norm := 1000000000 }
    ∧ ((1000000000 : ℚ) ≠ 1) := by
  constructor
  · norm_num [dNdz.normalize, dNdz.dndz, dNdz.init, testEnv, testDefaults,
      dNdzState.mk.injEq]
  · norm_num

/-- Claim C5 counterexample: the claim scales the delta-function
convergence window by 1/a(chi) with a(chi) = 1/(1+z(chi)).  At the
concrete in-bounds input chi = 50 (source plane z = 1, chi_max = 100,
z(50) = 1/2) the code returns 45/2 while the claimed closed form gives
135/8: the code divides by a = 1/(1 + source redshift), not by
1/(1 + z(chi)). -/
theorem c5_delta_scale_counterexample :
    (let s := WindowFunctionConvergenceDelta.init testEnv testDefaults 1 cosmoA
     s.wf.chi_min ≤ 50 ∧ (50 : ℚ) ≤ s.wf.chi_max
     ∧ WindowFunctionConvergenceDelta.raw_window_function s 50
         ≠ 3 / 2 * s.wf.cosmo.omega_m0 * (s.wf.cosmo.H0 * s.wf.cosmo.H0) * 50 *
             ((s.wf.chi_max - 50) / s.wf.chi_max) /
             (1 / (1 + s.wf.cosmo.redshift 50))) := by
  norm_num [WindowFunctionConvergenceDelta.init,
    WindowFunctionConvergenceDelta.raw_window_function,
    WindowFunctionConvergenceDelta.lensing_integrand,
    WindowFunction.init, WindowFunction.set_cosmology_object,
    linspace, List.range_succ, testEnv, testDefaults, cosmoA]

/-- Claim C5 as amended: for every delta-convergence window state and
every chi at most chi_max, raw_window_function(chi) equals
(3/2) * omega_m0 * H0^2 * chi * ((chi_max - chi)/chi_max) * (1 + z_s)
where z_s is the fixed source redshift — i.e. the scale factor in the
denominator is that of the source plane, constant in chi, not a(chi). -/
theorem c5_delta_scale_amended (s : WFDeltaState) (chi : ℚ)
    (h : chi ≤ s.wf.chi_max) :
    WindowFunctionConvergenceDelta.raw_window_function s chi
      = 3 / 2 * s.wf.cosmo.omega_m0 * (s.wf.cosmo.H0 * s.wf.cosmo.H0) * chi *
          ((s.wf.chi_max - chi) / s.wf.chi_max) * (1 + s.redshift0) := by
  simp only [WindowFunctionConvergenceDelta.raw_window_function,
    WindowFunctionConvergenceDelta.lensing_integrand]
  rw [if_neg (not_lt.mpr h), div_eq_mul_inv, one_div, inv_inv]
  ring

/-- Witness for the amended C5 theorem at the concrete source plane z = 1,
chi = 50 of the counterexample. -/
theorem c5_delta_scale_amended_witness :
    WindowFunctionConvergenceDelta.raw_window_function
        (WindowFunctionConvergenceDelta.init testEnv testDefaults 1 cosmoA) 50
      = 3 / 2 *
          (WindowFunctionConvergenceDelta.init testEnv testDefaults 1
            cosmoA).wf.cosmo.omega_m0 *
          ((WindowFunctionConvergenceDelta.init testEnv testDefaults 1
            cosmoA).wf.cosmo.H0 *
           (WindowFunctionConvergenceDelta.init testEnv testDefaults 1
            cosmoA).wf.cosmo.H0) * 50 *
          (((WindowFunctionConvergenceDelta.init testEnv testDefaults 1
              cosmoA).wf.chi_max - 50) /
            (WindowFunctionConvergenceDelta.init testEnv testDefaults 1
              cosmoA).wf.chi_max) *
          (1 + (WindowFunctionConvergenceDelta.init testEnv testDefaults 1
            cosmoA).redshift0) :=
  c5_delta_scale_amended
    (WindowFunctionConvergenceDelta.init testEnv testDefaults 1 cosmoA) 50
    (by norm_num [WindowFunctionConvergenceDelta.init, WindowFunction.init,
      WindowFunction.set_cosmology_object, cosmoA, testDefaults])

/-- Claim C8 counterexample: after set_cosmology the sample grid
_chi_array still holds its construction-time values (it differs from the
linspace of the post-reset bounds), and a post-reset window_function query
differs from the same query on a freshly constructed window with the same
new cosmology — the pre-reset grid influences the result, contradicting
the claim that no pre-reset cached value does. -/
theorem c8_stale_grid_counterexample :
    (let s0 := WindowFunction.init testEnv testDefaults 0 1 cosmoA
     let s1 := WindowFunction.set_cosmology cosmoB s0
     let sf := WindowFunction.init testEnv testDefaults 0 1 cosmoB
     s1.chi_array
       ≠ linspace s1.chi_min s1.chi_max testDefaults.window_npoints
     ∧ (WindowFunction.window_function testEnv
          WindowFunction.raw_window_function s1 150).2
       ≠ (WindowFunction.window_function testEnv
          WindowFunction.raw_window_function sf 150).2) := by
  norm_num [WindowFunction.init, WindowFunction.set_cosmology,
    WindowFunction.set_cosmology_object, WindowFunction.window_function,
    WindowFunction.init_spline, WindowFunction.raw_window_function,
    linspace, List.range_succ, testEnv, testDefaults, cosmoA, cosmoB]

/-- Claim C8 as amended: after WindowFunction.set_cosmology the cached
chi_min and chi_max equal the new cosmology's comoving_distance at z_min
and z_max and the spline-valid flag is cleared, but the comoving-distance
sample grid _chi_array keeps its construction-time values, so the next
window_function query rebuilds the spline by sampling raw_window_function
at the pre-reset grid points. -/
theorem c8_set_cosmology_amended (env : Env) (raw : WFState → ℚ → ℚ)
    (c : Cosmology) (s : WFState) (chi : ℚ) :
    (WindowFunction.set_cosmology c s).chi_min = c.comoving_distance s.z_min
    ∧ (WindowFunction.set_cosmology c s).chi_max = c.comoving_distance s.z_max
    ∧ (WindowFunction.set_cosmology c s).inited_spline = false
    ∧ (WindowFunction.set_cosmology c s).chi_array = s.chi_array
    ∧ (WindowFunction.window_function env raw
         (WindowFunction.set_cosmology c s) chi).1.wf_array
        = s.chi_array.map (raw (WindowFunction.set_cosmology c s)) := by
  refine ⟨rfl, rfl, rfl, rfl, ?_⟩
  simp [WindowFunction.window_function, WindowFunction.set_cosmology,
    WindowFunction.init_spline]

/-- Claim C3: Kernel.set_cosmology propagates the new cosmology to both
window functions, recomputes the merged chi/z domain (for a strictly
monotone comoving_distance the z bounds are the min/max of the windows'
bounds), clears the kernel spline flag, recomputes z_bar, and leaves the
cached window-product normalization _window_norm unchanged. -/
theorem c3_set_cosmology_effects (env : Env) (df : Defaults)
    (rawA rawB : WFState → ℚ → ℚ) (c : Cosmology) (s : KernelState)
    (hmono : StrictMono c.comoving_distance) :
    (Kernel.set_cosmology env df rawA rawB c s).wf_a
        = WindowFunction.set_cosmology_object c s.wf_a
    ∧ (Kernel.set_cosmology env df rawA rawB c s).wf_b
        = WindowFunction.set_cosmology_object c s.wf_b
    ∧ (Kernel.set_cosmology env df rawA rawB c s).cosmo = c
    ∧ (Kernel.set_cosmology env df rawA rawB c s).chi_min
        = min (c.comoving_distance s.wf_a.z_min)
              (c.comoving_distance s.wf_b.z_min)
    ∧ (Kernel.set_cosmology env df rawA rawB c s).chi_max
        = max (c.comoving_distance s.wf_a.z_max)
              (c.comoving_distance s.wf_b.z_max)
    ∧ (Kernel.set_cosmology env df rawA rawB c s).z_min
        = min s.wf_a.z_min s.wf_b.z_min
    ∧ (Kernel.set_cosmology env df rawA rawB c s).z_max
        = max s.wf_a.z_max s.wf_b.z_max
    ∧ (Kernel.set_cosmology env df rawA rawB c s).inited_spline = false
    ∧ (Kernel.set_cosmology env df rawA rawB c s).z_bar
        = Kernel.find_z_bar env df rawA rawB
            (Kernel.set_cosmology env df rawA rawB c s)
    ∧ (Kernel.set_cosmology env df rawA rawB c s).window_norm
        = s.window_norm := by
  refine ⟨rfl, rfl, rfl, if_lt_eq_min _ _, if_gt_eq_max _ _, ?_, ?_, rfl,
    rfl, rfl⟩
  · show (if c.comoving_distance s.wf_b.z_min < c.comoving_distance s.wf_a.z_min
          then s.wf_b.z_min else s.wf_a.z_min)
        = min s.wf_a.z_min s.wf_b.z_min
    simp only [hmono.lt_iff_lt]
    exact if_lt_eq_min _ _
  · show (if c.comoving_distance s.wf_b.z_max > c.comoving_distance s.wf_a.z_max
          then s.wf_b.z_max else s.wf_a.z_max)
        = max s.wf_a.z_max s.wf_b.z_max
    simp only [gt_iff_lt, hmono.lt_iff_lt]
    exact if_gt_eq_max _ _

/-- Witness for C3 at a concrete kernel and cosmology reset: the
normalization and spline flag facts extracted from the theorem. -/
theorem c3_set_cosmology_effects_witness :
    (Kernel.set_cosmology testEnv testDefaults
        WindowFunction.raw_window_function WindowFunction.raw_window_function
        cosmoB
        (Kernel.init testEnv testDefaults
          WindowFunction.raw_window_function WindowFunction.raw_window_function
          1 2 (WindowFunction.init testEnv testDefaults 0 1 cosmoA)
          (WindowFunction.init testEnv testDefaults 0 1 cosmoA)
          cosmoA false)).window_norm
      = (Kernel.init testEnv testDefaults
          WindowFunction.raw_window_function WindowFunction.raw_window_function
          1 2 (WindowFunction.init testEnv testDefaults 0 1 cosmoA)
          (WindowFunction.init testEnv testDefaults 0 1 cosmoA)
          cosmoA false).window_norm
    ∧ (Kernel.set_cosmology testEnv testDefaults
        WindowFunction.raw_window_function WindowFunction.raw_window_function
        cosmoB
        (Kernel.init testEnv testDefaults
          WindowFunction.raw_window_function WindowFunction.raw_window_function
          1 2 (WindowFunction.init testEnv testDefaults 0 1 cosmoA)
          (WindowFunction.init testEnv testDefaults 0 1 cosmoA)
          cosmoA false)).inited_spline = false := by
  have hm : StrictMono cosmoB.comoving_distance := by
    intro x y hxy
    show (200 : ℚ) * x < 200 * y
    linarith
  exact ⟨(c3_set_cosmology_effects testEnv testDefaults
      WindowFunction.raw_window_function WindowFunction.raw_window_function
      cosmoB _ hm).2.2.2.2.2.2.2.2.2,
    (c3_set_cosmology_effects testEnv testDefaults
      WindowFunction.raw_window_function WindowFunction.raw_window_function
      cosmoB _ hm).2.2.2.2.2.2.2.1⟩

/-- Claim C4: constructing a Kernel merges the domains by
z_min = min, z_max = max, chi_min = min, chi_max = max over the two
window functions (the chi bounds being those of the windows after
reparenting onto the shared cosmology); in particular windows with z
ranges [0.1, 1.0] and [0.5, 1.5] give kernel z_min = 0.1, z_max = 1.5. -/
theorem c4_domain_merge (env : Env) (df : Defaults)
    (rawA rawB : WFState → ℚ → ℚ) (ktm ktM : ℚ) (wa wb : WFState)
    (cosmo : Cosmology) (fq : Bool) :
    (Kernel.init env df rawA rawB ktm ktM wa wb cosmo fq).z_min
        = min wa.z_min wb.z_min
    ∧ (Kernel.init env df rawA rawB ktm ktM wa wb cosmo fq).z_max
        = max wa.z_max wb.z_max
    ∧ (Kernel.init env df rawA rawB ktm ktM wa wb cosmo fq).chi_min
        = min (Kernel.init env df rawA rawB ktm ktM wa wb cosmo fq).wf_a.chi_min
              (Kernel.init env df rawA rawB ktm ktM wa wb cosmo fq).wf_b.chi_min
    ∧ (Kernel.init env df rawA rawB ktm ktM wa wb cosmo fq).chi_max
        = max (Kernel.init env df rawA rawB ktm ktM wa wb cosmo fq).wf_a.chi_max
              (Kernel.init env df rawA rawB ktm ktM wa wb cosmo fq).wf_b.chi_max
    ∧ (Kernel.init testEnv testDefaults WindowFunction.raw_window_function
        WindowFunction.raw_window_function 1 2
        (WindowFunction.init testEnv testDefaults (1 / 10) 1 cosmoA)
        (WindowFunction.init testEnv testDefaults (1 / 2) (3 / 2) cosmoA)
        cosmoA false).z_min = 1 / 10
    ∧ (Kernel.init testEnv testDefaults WindowFunction.raw_window_function
        WindowFunction.raw_window_function 1 2
        (WindowFunction.init testEnv testDefaults (1 / 10) 1 cosmoA)
        (WindowFunction.init testEnv testDefaults (1 / 2) (3 / 2) cosmoA)
        cosmoA false).z_max = 3 / 2 := by
  refine ⟨if_lt_eq_min _ _, if_gt_eq_max _ _, if_lt_eq_min _ _,
    if_gt_eq_max _ _, ?_, ?_⟩
  · show (if (1 : ℚ) / 2 < 1 / 10 then (1 : ℚ) / 2 else 1 / 10) = 1 / 10
    norm_num
  · show (if (3 : ℚ) / 2 > 1 then (3 : ℚ) / 2 else 1) = 3 / 2
    norm_num

/-- Claim C10: a WindowFunctionConvergence built from a redshift
distribution has z_min = 0 whatever the distribution's z_min is (only its
z_max is kept), and a Kernel over two such windows has merged z_min = 0
and chi_min = comoving_distance(0). -/
theorem c10_convergence_zmin_zero (env : Env) (df : Defaults)
    (rawDA rawDB : ℚ → ℚ) (dA dB : dNdzState) (cA cB : Cosmology)
    (rawA rawB : WFState → ℚ → ℚ) (ktm ktM : ℚ) (kcosmo : Cosmology)
    (fq : Bool) :
    (WindowFunctionConvergence.init env df rawDA dA cA).wf.z_min = 0
    ∧ (WindowFunctionConvergence.init env df rawDA dA cA).wf.z_max = dA.z_max
    ∧ (Kernel.init env df rawA rawB ktm ktM
        (WindowFunctionConvergence.init env df rawDA dA cA).wf
        (WindowFunctionConvergence.init env df rawDB dB cB).wf
        kcosmo fq).z_min = 0
    ∧ (Kernel.init env df rawA rawB ktm ktM
        (WindowFunctionConvergence.init env df rawDA dA cA).wf
        (WindowFunctionConvergence.init env df rawDB dB cB).wf
        kcosmo fq).chi_min = kcosmo.comoving_distance 0 := by
  refine ⟨rfl, rfl, ?_, ?_⟩
  · show (if (0 : ℚ) < 0 then (0 : ℚ) else 0) = 0
    simp
  · show (if kcosmo.comoving_distance 0 < kcosmo.comoving_distance 0
          then kcosmo.comoving_distance 0 else kcosmo.comoving_distance 0)
        = kcosmo.comoving_distance 0
    simp

/-- For a kernel state whose cached _window_norm is the romberg integral
of its own window product over its own [chi_min, chi_max] at
kernel_precision — which Kernel.__init__ establishes — the weighted mean
of the constant 1 is norm/norm = 1. -/
theorem weighted_mean_one_of_norm (env : Env) (df : Defaults)
    (rawA rawB : WFState → ℚ → ℚ) (s : KernelState)
    (hs : s.window_norm = env.romberg
      (fun chi => WindowFunction.wfValue env rawA s.wf_a chi *
        WindowFunction.wfValue env rawB s.wf_b chi)
      s.chi_min s.chi_max df.kernel_precision)
    (h : s.window_norm ≠ 0) :
    Kernel.kernel_weighted_mean env df rawA rawB s (fun _ => 1) = 1 := by
  simp only [Kernel.kernel_weighted_mean, one_mul]
  rw [← hs]
  exact div_self h

/-- Claim C6: for every freshly constructed Kernel whose window-product
normalization is nonzero, kernel_weighted_mean of the constant function 1
returns exactly 1 — the weighted integral is the very romberg call that
produced the cached _window_norm. -/
theorem c6_weighted_mean_of_one (env : Env) (df : Defaults)
    (rawA rawB : WFState → ℚ → ℚ) (ktm ktM : ℚ) (wa wb : WFState)
    (cosmo : Cosmology) (fq : Bool)
    (h : (Kernel.init env df rawA rawB ktm ktM wa wb cosmo fq).window_norm
      ≠ 0) :
    Kernel.kernel_weighted_mean env df rawA rawB
      (Kernel.init env df rawA rawB ktm ktM wa wb cosmo fq) (fun _ => 1)
      = 1 :=
  weighted_mean_one_of_norm env df rawA rawB
    (Kernel.init env df rawA rawB ktm ktM wa wb cosmo fq) rfl h

/-- Witness for C6 at a concrete kernel whose normalization evaluates to
2250000, which is nonzero. -/
theorem c6_weighted_mean_of_one_witness :
    Kernel.kernel_weighted_mean testEnv testDefaults
      WindowFunction.raw_window_function WindowFunction.raw_window_function
      (Kernel.init testEnv testDefaults
        WindowFunction.raw_window_function WindowFunction.raw_window_function
        1 2 (WindowFunction.init testEnv testDefaults 0 1 cosmoA)
        (WindowFunction.init testEnv testDefaults 0 1 cosmoA)
        cosmoA false) (fun _ => 1) = 1 :=
  c6_weighted_mean_of_one testEnv testDefaults
    WindowFunction.raw_window_function WindowFunction.raw_window_function
    1 2 (WindowFunction.init testEnv testDefaults 0 1 cosmoA)
    (WindowFunction.init testEnv testDefaults 0 1 cosmoA) cosmoA false
    (by norm_num [Kernel.init, WindowFunction.init,
      WindowFunction.init_spline, WindowFunction.set_cosmology_object,
      WindowFunction.window_function, WindowFunction.wfValue,
      WindowFunction.raw_window_function, linspace, List.range_succ,
      testEnv, testDefaults, cosmoA])

/-- Claim C7: window_function masks to exactly 0 outside
[chi_min, chi_max]; when the spline flag is set the call leaves the state
untouched, is a pure spline lookup, and is independent of the raw window
function; when the flag is clear the call builds the spline by sampling
the raw window function at every grid point, sets the flag, and returns
the masked value of the freshly fitted spline. -/
theorem c7_window_function_lazy (env : Env) (raw : WFState → ℚ → ℚ)
    (s : WFState) (chi : ℚ) :
    (¬ (chi ≤ s.chi_max ∧ s.chi_min ≤ chi) →
      (WindowFunction.window_function env raw s chi).2 = 0)
    ∧ (s.inited_spline = true →
        (WindowFunction.window_function env raw s chi).1 = s
        ∧ (WindowFunction.window_function env raw s chi).2
            = (if chi ≤ s.chi_max ∧ s.chi_min ≤ chi then s.wf_spline chi
               else 0)
        ∧ ∀ raw2 : WFState → ℚ → ℚ,
            WindowFunction.window_function env raw2 s chi
              = WindowFunction.window_function env raw s chi)
    ∧ (s.inited_spline = false →
        (WindowFunction.window_function env raw s chi).1.wf_array
            = s.chi_array.map (raw s)
        ∧ (WindowFunction.window_function env raw s chi).1.wf_spline
            = env.splineFit s.chi_array (s.chi_array.map (raw s))
        ∧ (WindowFunction.window_function env raw s chi).1.inited_spline
            = true
        ∧ (WindowFunction.window_function env raw s chi).2
            = (if chi ≤ s.chi_max ∧ s.chi_min ≤ chi
               then env.splineFit s.chi_array (s.chi_array.map (raw s)) chi
               else 0)) := by
  refine ⟨fun hout => ?_, fun ht => ?_, fun hf => ?_⟩
  · by_cases hs : s.inited_spline
    · simp [WindowFunction.window_function, hs, hout]
    · simp [WindowFunction.window_function, WindowFunction.init_spline,
        hs, hout]
  · refine ⟨?_, ?_, fun raw2 => ?_⟩ <;>
      simp [WindowFunction.window_function, ht]
  · refine ⟨?_, ?_, ?_, ?_⟩ <;>
      simp [WindowFunction.window_function, WindowFunction.init_spline, hf]

/-- Witness for C7: a query outside the bounds returns 0; a query on an
already-built state leaves the state unchanged; a first query builds the
value cache by sampling the raw window function at every grid point. -/
theorem c7_window_function_lazy_witness :
    (WindowFunction.window_function testEnv
        WindowFunction.raw_window_function
        (WindowFunction.init testEnv testDefaults 0 1 cosmoA) 150).2 = 0
    ∧ (WindowFunction.window_function testEnv
        WindowFunction.raw_window_function
        ((WindowFunction.window_function testEnv
          WindowFunction.raw_window_function
          (WindowFunction.init testEnv testDefaults 0 1 cosmoA) 0).1) 50).1
      = (WindowFunction.window_function testEnv
          WindowFunction.raw_window_function
          (WindowFunction.init testEnv testDefaults 0 1 cosmoA) 0).1
    ∧ (WindowFunction.window_function testEnv
        WindowFunction.raw_window_function
        (WindowFunction.init testEnv testDefaults 0 1 cosmoA) 50).1.wf_array
      = (WindowFunction.init testEnv testDefaults 0 1 cosmoA).chi_array.map
          (WindowFunction.raw_window_function
            (WindowFunction.init testEnv testDefaults 0 1 cosmoA)) := by
  refine ⟨?_, ?_, ?_⟩
  · exact (c7_window_function_lazy testEnv
      WindowFunction.raw_window_function
      (WindowFunction.init testEnv testDefaults 0 1 cosmoA) 150).1
      (by norm_num [WindowFunction.init,
        WindowFunction.set_cosmology_object, cosmoA, testDefaults])
  · exact ((c7_window_function_lazy testEnv
      WindowFunction.raw_window_function
      ((WindowFunction.window_function testEnv
        WindowFunction.raw_window_function
        (WindowFunction.init testEnv testDefaults 0 1 cosmoA) 0).1)
      50).2.1 rfl).1
  · exact ((c7_window_function_lazy testEnv
      WindowFunction.raw_window_function
      (WindowFunction.init testEnv testDefaults 0 1 cosmoA) 50).2.2
      rfl).1

/-- Claim C9: normalize integrates the already-normalized dndz, so (for a
homogeneous integrator, i.e. exact integration, with nonzero raw-shape
integral I1) starting from the construction value norm = 1: the first
normalize stores 1/I1, after it the density integrates to exactly 1, and
a second normalize stores the reciprocal of that unit integral, resetting
norm to 1 and undoing the normalization. -/
theorem c9_normalize_not_idempotent (env : Env) (df : Defaults)
    (raw : ℚ → ℚ) (d : dNdzState) (hd : d.norm = 1)
    (hH : ∀ (c : ℚ) (f : ℚ → ℚ),
      env.romberg (fun z => c * f z) d.z_min d.z_max df.dNdz_precision
        = c * env.romberg f d.z_min d.z_max df.dNdz_precision)
    (hI : env.romberg (dNdz.dndz raw d) d.z_min d.z_max df.dNdz_precision
      ≠ 0) :
    (dNdz.normalize env df raw d).norm
        = 1 / env.romberg (dNdz.dndz raw d) d.z_min d.z_max
            df.dNdz_precision
    ∧ env.romberg (dNdz.dndz raw (dNdz.normalize env df raw d))
        d.z_min d.z_max df.dNdz_precision = 1
    ∧ (dNdz.normalize env df raw (dNdz.normalize env df raw d)).norm
        = 1 := by
  obtain ⟨a, b, n⟩ := d
  dsimp only at hd hH hI ⊢
  subst hd
  have h2 : env.romberg
      (dNdz.dndz raw (dNdz.normalize env df raw ⟨a, b, 1⟩)) a b
      df.dNdz_precision = 1 := by
    have hfun : dNdz.dndz raw (dNdz.normalize env df raw ⟨a, b, 1⟩)
        = fun z => (1 / env.romberg (dNdz.dndz raw ⟨a, b, 1⟩) a b
            df.dNdz_precision) * dNdz.dndz raw ⟨a, b, 1⟩ z :=
      funext fun z => dndz_norm_smul raw ⟨a, b, 1⟩ _ z
    rw [hfun, hH, one_div, inv_mul_cancel₀ hI]
  refine ⟨rfl, h2, ?_⟩
  have h3 : (dNdz.normalize env df raw
      (dNdz.normalize env df raw ⟨a, b, 1⟩)).norm
    = 1 / env.romberg
        (dNdz.dndz raw (dNdz.normalize env df raw ⟨a, b, 1⟩)) a b
        df.dNdz_precision := rfl
  rw [h3, h2]
  norm_num

/-- Witness for C9 at the constant raw shape 2 on [0, 1] under the exact
midpoint integrator: one normalize stores 1/2, a second resets to 1. -/
theorem c9_normalize_not_idempotent_witness :
    (dNdz.normalize testEnv testDefaults (fun _ => 2)
      (dNdz.normalize testEnv testDefaults (fun _ => 2)
        (dNdz.init 0 1))).norm = 1 := by
  have hH : ∀ (c : ℚ) (f : ℚ → ℚ),
      testEnv.romberg (fun z => c * f z) (dNdz.init 0 1).z_min
          (dNdz.init 0 1).z_max testDefaults.dNdz_precision
        = c * testEnv.romberg f (dNdz.init 0 1).z_min
            (dNdz.init 0 1).z_max testDefaults.dNdz_precision := by
    intro c f
    show (1 - 0 : ℚ) * (c * f ((0 + 1) / 2))
        = c * ((1 - 0) * f ((0 + 1) / 2))
    ring
  have hI : testEnv.romberg (dNdz.dndz (fun _ => 2) (dNdz.init 0 1))
      (dNdz.init 0 1).z_min (dNdz.init 0 1).z_max
      testDefaults.dNdz_precision ≠ 0 := by
    norm_num [dNdz.dndz, dNdz.init, testEnv, testDefaults]
  exact (c9_normalize_not_idempotent testEnv testDefaults (fun _ => 2)
    (dNdz.init 0 1) rfl hH hI).2.2
